import Mathlib

/-
  Verification development for the connect4 websocket session broker
  (src/app.py).  The server code is embedded shallowly: the per-connection
  handlers become pure functions over an explicit server state, message
  sends become explicit event lists, and the registry dictionaries JOIN
  and WATCH become association lists from tokens to session identifiers
  (the identifier indirection models Python object sharing between the
  two tables).
-/

namespace C4B

/-- Player role constants of the game engine (PLAYER1 / PLAYER2). -/
inductive Player where
  | P1 : Player
  | P2 : Player
deriving DecidableEq, Repr, BEq

/-- A recorded move: (player, column, row), as stored in the engine history. -/
abbrev Move := Player × Nat × Nat

/-- Modelled from the spec: the external Game Engine (connect4.py, imported
by src/app.py but not itself under src/).  The spec describes it as a
deterministic move validator keeping an ordered, append-only history of
completed moves; its whole state is that history. -/
structure Connect4 where
  moves : List Move
deriving DecidableEq, Repr

/-- Modelled from the spec: a fresh engine with empty history. -/
def Connect4.new : Connect4 := ⟨[]⟩

/-- Number of pieces already in a column; the row a new piece would take. -/
def Connect4.top (g : Connect4) (c : Nat) : Nat :=
  (g.moves.filter (fun m => m.2.1 == c)).length

/-- The player expected to move next: moves strictly alternate, P1 first. -/
def Connect4.turn (g : Connect4) : Player :=
  if g.moves.length % 2 == 0 then Player.P1 else Player.P2

/-- Cell occupant at (column, row), read off the move history. -/
def Connect4.cell (g : Connect4) (c r : Nat) : Option Player :=
  (g.moves.find? (fun m => m.2.1 == c && m.2.2 == r)).map (fun m => m.1)

/-- Cell lookup with integer coordinates (off-board is empty). -/
def Connect4.cellI (g : Connect4) (c r : Int) : Option Player :=
  if 0 ≤ c ∧ 0 ≤ r then g.cell c.toNat r.toNat else none

/-- The four line directions used by standard four-in-a-row detection. -/
def fourDirs : List (Int × Int) := [(1, 0), (0, 1), (1, 1), (1, -1)]

/-- Modelled from the spec: whether a player has four in a row somewhere on
the 7x6 board (the win-detection rules themselves are external to the core;
this is the standard Connect Four rule). -/
def Connect4.hasFour (g : Connect4) (p : Player) : Bool :=
  (List.range 7).any fun c =>
    (List.range 6).any fun r =>
      fourDirs.any fun d =>
        (List.range 4).all fun k =>
          g.cellI ((c : Int) + d.1 * (k : Int)) ((r : Int) + d.2 * (k : Int)) == some p

/-- Modelled from the spec: the winner exposed by the engine (role or none). -/
def Connect4.winner (g : Connect4) : Option Player :=
  if g.hasFour Player.P1 then some Player.P1
  else if g.hasFour Player.P2 then some Player.P2
  else none

/-- Modelled from the spec: engine play(role, column) returning the row, or
failing with an engine-defined error when the move is illegal (game already
concluded, wrong turn, column out of bounds, column full).  On success the
move is appended to the history. -/
def Connect4.play (g : Connect4) (p : Player) (c : Nat) : Except String (Nat × Connect4) :=
  if g.winner ≠ none then Except.error "Game is already over."
  else if p ≠ g.turn then Except.error "It is not your turn."
  else if 7 ≤ c then Except.error "This column is out of range."
  else if 6 ≤ g.top c then Except.error "This column is full."
  else Except.ok (g.top c, ⟨g.moves ++ [(p, c, g.top c)]⟩)

/-- On an accepted move the engine appends exactly that move to its history. -/
theorem Connect4.play_ok_moves {g : Connect4} {p : Player} {c row : Nat} {g1 : Connect4}
    (h : g.play p c = Except.ok (row, g1)) :
    g1.moves = g.moves ++ [(p, c, row)] := by
  unfold Connect4.play at h
  split at h
  · exact absurd h (by simp)
  · split at h
    · exact absurd h (by simp)
    · split at h
      · exact absurd h (by simp)
      · split at h
        · exact absurd h (by simp)
        · simp at h
          obtain ⟨h1, h2⟩ := h
          subst h1
          rw [← h2]

/-- A concluded game rejects every further move. -/
theorem Connect4.play_of_winner {g : Connect4} {p : Player} {c : Nat} {w : Player}
    (h : g.winner = some w) :
    g.play p c = Except.error "Game is already over." := by
  unfold Connect4.play
  rw [h]
  simp

/-- The six wire event shapes, as produced by the server. -/
inductive ServerEvent where
  | init (join watch : String) : ServerEvent
  | error (message : String) : ServerEvent
  | play (player : Player) (column row : Nat) : ServerEvent
  | win (player : Player) : ServerEvent
deriving DecidableEq, Repr

/-- The play broadcast event built from a recorded move (src/app.py line 102
and line 133): type play with player, column, row. -/
def playEv (m : Move) : ServerEvent := ServerEvent.play m.1 m.2.1 m.2.2

/-- Connection handles are identified by a number. -/
abbrev ConnId := Nat

/-- One iteration of the relay loop body of play (src/app.py lines 124-137),
with delivery made explicit: the engine is invoked; a rejection sends one
error event to the requesting connection only; an accepted move broadcasts
to every member of the connection group — a play event while there is no
winner, a win event otherwise. -/
def relayStepD (conns : List ConnId) (self : ConnId) (g : Connect4) (p : Player) (c : Nat) :
    Connect4 × List (ConnId × ServerEvent) :=
  match g.play p c with
  | Except.error msg => (g, [(self, ServerEvent.error msg)])
  | Except.ok (row, g1) =>
      match g1.winner with
      | none => (g1, conns.map (fun w => (w, ServerEvent.play p c row)))
      | some wp => (g1, conns.map (fun w => (w, ServerEvent.win wp)))

/-- Running the relay loop over a sequence of inbound move requests
(requesting connection, engine role, column), accumulating every delivered
(recipient, event) pair in order. -/
def relayRunD (conns : List ConnId) : Connect4 → List (ConnId × Player × Nat) →
    Connect4 × List (ConnId × ServerEvent)
  | g, [] => (g, [])
  | g, (self, p, c) :: rest =>
      let step := relayStepD conns self g p c
      let next := relayRunD conns step.1 rest
      (next.1, step.2 ++ next.2)

/-- Whether every request in the sequence is accepted by the engine. -/
def allAccepted : Connect4 → List (ConnId × Player × Nat) → Bool
  | _, [] => true
  | g, (_, p, c) :: rest =>
      match g.play p c with
      | Except.error _ => false
      | Except.ok (_, g1) => allAccepted g1 rest

/-- The ordered sequence of events a given connection receives. -/
def memberLog (ws : ConnId) (log : List (ConnId × ServerEvent)) : List ServerEvent :=
  log.filterMap (fun e => if e.1 == ws then some e.2 else none)

end C4B

namespace C4B

theorem memberLog_append (ws : ConnId) (a b : List (ConnId × ServerEvent)) :
    memberLog ws (a ++ b) = memberLog ws a ++ memberLog ws b := by
  simp [memberLog]

theorem memberLog_not_mem (ws : ConnId) (conns : List ConnId) (ev : ServerEvent)
    (h : ws ∉ conns) :
    memberLog ws (conns.map (fun w => (w, ev))) = [] := by
  induction conns with
  | nil => rfl
  | cons a l ih =>
      simp only [List.mem_cons, not_or] at h
      simp only [List.map_cons, memberLog, List.filterMap_cons]
      have : (a == ws) = false := by simpa [BEq.beq] using fun hh => h.1 hh.symm
      simp only [this]
      exact ih h.2

theorem memberLog_map_self (ws : ConnId) (conns : List ConnId) (ev : ServerEvent)
    (hnd : conns.Nodup) (hm : ws ∈ conns) :
    memberLog ws (conns.map (fun w => (w, ev))) = [ev] := by
  induction conns with
  | nil => cases hm
  | cons a l ih =>
      rcases List.mem_cons.mp hm with h | h
      · subst h
        simp only [List.map_cons, memberLog, List.filterMap_cons, beq_self_eq_true]
        have : ws ∉ l := (List.nodup_cons.mp hnd).1
        have := memberLog_not_mem ws l ev this
        simp only [memberLog] at this
        rw [this]
        simp
      · have hne : (a == ws) = false := by
          have : a ≠ ws := by
            intro hh; subst hh; exact (List.nodup_cons.mp hnd).1 h
          simpa using this
        simp only [List.map_cons, memberLog, List.filterMap_cons, hne]
        exact ih (List.nodup_cons.mp hnd).2 h

theorem memberLog_bcast (ws : ConnId) (conns : List ConnId) (ms : List Move)
    (f : Move → ServerEvent) (hnd : conns.Nodup) (hm : ws ∈ conns) :
    memberLog ws (ms.flatMap (fun m => conns.map (fun w => (w, f m)))) = ms.map f := by
  induction ms with
  | nil => rfl
  | cons m rest ih =>
      simp only [List.flatMap_cons, List.map_cons]
      rw [memberLog_append, memberLog_map_self ws conns (f m) hnd hm, ih]
      rfl

/-- Main relay invariant: starting from an unfinished game, a run in which
the engine accepts every request appends some tail of moves to the history
and delivers, to every group member alike, the play events of those moves —
except that when the run ends with a winner, the final move is delivered as
a single win event instead of a play event. -/
theorem relayRunD_accepted (conns : List ConnId) :
    ∀ (reqs : List (ConnId × Player × Nat)) (g : Connect4),
      g.winner = none → allAccepted g reqs = true →
      ∃ tail : List Move,
        (relayRunD conns g reqs).1.moves = g.moves ++ tail ∧
        (((relayRunD conns g reqs).1.winner = none ∧
          (relayRunD conns g reqs).2 =
            tail.flatMap (fun m => conns.map (fun w => (w, playEv m)))) ∨
         (∃ wp, (relayRunD conns g reqs).1.winner = some wp ∧ tail ≠ [] ∧
          (relayRunD conns g reqs).2 =
            tail.dropLast.flatMap (fun m => conns.map (fun w => (w, playEv m)))
              ++ conns.map (fun w => (w, ServerEvent.win wp)))) := by
  intro reqs
  induction reqs with
  | nil =>
      intro g hw _
      exact ⟨[], by simp [relayRunD], Or.inl ⟨by simpa [relayRunD] using hw, by simp [relayRunD]⟩⟩
  | cons req rest ih =>
      obtain ⟨self, p, c⟩ := req
      intro g hw hacc
      cases hplay : g.play p c with
      | error msg => simp [allAccepted, hplay] at hacc
      | ok pr =>
          obtain ⟨row, g1⟩ := pr
          have hmv := Connect4.play_ok_moves hplay
          have hacc1 : allAccepted g1 rest = true := by
            simpa [allAccepted, hplay] using hacc
          cases hw1 : g1.winner with
          | none =>
              obtain ⟨tail, hmoves, hdisj⟩ := ih g1 hw1 hacc1
              refine ⟨(p, c, row) :: tail, ?_, ?_⟩
              · simp [relayRunD, relayStepD, hplay, hw1, hmoves, hmv]
              · cases hdisj with
                | inl h =>
                    exact Or.inl ⟨by simp [relayRunD, relayStepD, hplay, hw1, h.1],
                      by simp [relayRunD, relayStepD, hplay, hw1, h.2, playEv]⟩
                | inr h =>
                    obtain ⟨wp, hwp, hne, hlog⟩ := h
                    refine Or.inr ⟨wp, by simp [relayRunD, relayStepD, hplay, hw1, hwp],
                      by simp, ?_⟩
                    simp [relayRunD, relayStepD, hplay, hw1, hlog, playEv,
                      List.dropLast_cons_of_ne_nil hne]
          | some wp =>
              have hrest : rest = [] := by
                cases hr : rest with
                | nil => rfl
                | cons r rs =>
                    obtain ⟨s2, p2, c2⟩ := r
                    rw [hr] at hacc1
                    rw [allAccepted] at hacc1
                    rw [Connect4.play_of_winner hw1] at hacc1
                    cases hacc1
              subst hrest
              refine ⟨[(p, c, row)], ?_, Or.inr ⟨wp, ?_, by simp, ?_⟩⟩
              · simp [relayRunD, relayStepD, hplay, hw1, hmv]
              · simp [relayRunD, relayStepD, hplay, hw1]
              · simp [relayRunD, relayStepD, hplay, hw1]

end C4B

namespace C4B

/-- Tokens are opaque strings (secrets.token_urlsafe output). -/
abbrev Token := String

/-- One session: the tuple (game, connected) stored in the registries
(src/app.py lines 31-37).  connected models the Python set of live
connection handles. -/
structure Session where
  game : Connect4
  connected : List ConnId
deriving DecidableEq, Repr

/-- The module-level server state: the two token registries JOIN and WATCH
(src/app.py lines 24-25).  Both tables map a token to a session identifier
into a common heap; the identifier indirection models the fact that in the
source both dictionary entries hold references to the very same pair of
Python objects. -/
structure ServerState where
  heap : List (Nat × Session)
  JOIN : List (Token × Nat)
  WATCH : List (Token × Nat)
deriving DecidableEq, Repr

/-- The state of a freshly started server: both registries empty. -/
def emptyState : ServerState := ⟨[], [], []⟩

/-- JOIN[token] lookup (src/app.py line 67). -/
def resolveJoin (st : ServerState) (t : Token) : Option Nat :=
  (st.JOIN.find? (fun e => e.1 == t)).map (fun e => e.2)

/-- WATCH[token] lookup (src/app.py line 85). -/
def resolveWatch (st : ServerState) (t : Token) : Option Nat :=
  (st.WATCH.find? (fun e => e.1 == t)).map (fun e => e.2)

/-- Dereference a session identifier. -/
def getSession (st : ServerState) (sid : Nat) : Option Session :=
  (st.heap.find? (fun e => e.1 == sid)).map (fun e => e.2)

/-- Mutate the session object a given identifier refers to (models an
in-place mutation of the shared Python objects). -/
def updateSession (st : ServerState) (sid : Nat) (f : Session → Session) : ServerState :=
  { st with heap := st.heap.map (fun e => if e.1 == sid then (e.1, f e.2) else e) }

/-- The three fixed player roles a connection can hold. -/
inductive Role where
  | firstPlayer : Role
  | secondPlayer : Role
  | spectator : Role
deriving DecidableEq, Repr

/-- Which engine role each kind of connection plays moves as: start enters
the relay loop with PLAYER1 (src/app.py line 50), join with PLAYER2
(line 77), and the watch path never invokes the engine play operation at
all (lines 90-96 only replay and wait). -/
def rolePlayer : Role → Option Player
  | Role.firstPlayer => some Player.P1
  | Role.secondPlayer => some Player.P2
  | Role.spectator => none

/-- The attach phase of start (src/app.py lines 28-47): create a fresh
engine, a connection group holding only the creator, register the same
session under a new join key and a new watch key, and send the creator the
init event carrying both tokens.  The fresh tokens and the fresh heap
identifier are parameters (the source draws the tokens from a secure
random source). -/
def start (st : ServerState) (ws : ConnId) (jk wk : Token) (sid : Nat) :
    ServerState × List ServerEvent :=
  ({ heap := (sid, ⟨Connect4.new, [ws]⟩) :: st.heap,
     JOIN := (jk, sid) :: st.JOIN,
     WATCH := (wk, sid) :: st.WATCH },
   [ServerEvent.init jk wk])

/-- The teardown of the first-player connection (src/app.py lines 52-53):
the finally block of start deletes only the JOIN entry of the session. -/
def startCleanup (st : ServerState) (jk : Token) : ServerState :=
  { st with JOIN := st.JOIN.filter (fun e => !(e.1 == jk)) }

/-- The attach phase of join (src/app.py lines 64-77): resolve the join
token; on failure send one error event and stop; on success add the
connection to the group and enter the relay loop as PLAYER2. -/
def joinAttach (st : ServerState) (t : Token) (ws : ConnId) :
    ServerState × List ServerEvent × Option Role :=
  match resolveJoin st t with
  | none => (st, [ServerEvent.error "Game not found."], none)
  | some sid =>
      (updateSession st sid (fun s => { s with connected := s.connected.insert ws }),
       [], some Role.secondPlayer)

/-- The attach phase of watch (src/app.py lines 83-94): resolve the watch
token; on failure send one error event and stop; on success add the
connection to the group and replay the recorded history to it as play
events (lines 99-103), then wait.  The dangling-identifier branch is
unreachable for states built by start, where every table entry points into
the heap; it is only there to keep the function total. -/
def watchAttach (st : ServerState) (t : Token) (ws : ConnId) :
    ServerState × List ServerEvent × Option Role :=
  match resolveWatch st t with
  | none => (st, [ServerEvent.error "Game not found."], none)
  | some sid =>
      match getSession st sid with
      | none => (st, [], none)
      | some s =>
          (updateSession st sid (fun s2 => { s2 with connected := s2.connected.insert ws }),
           s.game.moves.map playEv, some Role.spectator)

/-- The teardown of a joined connection (src/app.py line 80) and of a
watching connection (line 96): connected.remove(websocket) on the
session group of that connection alone. -/
def removeFromGroup (st : ServerState) (sid : Nat) (ws : ConnId) : ServerState :=
  updateSession st sid (fun s => { s with connected := s.connected.erase ws })

/-- The decoded first inbound message of a connection: its optional type,
join and watch fields. -/
structure InitMsg where
  type? : Option String
  join? : Option Token
  watch? : Option Token

/-- The three dispatch targets of the connection handler. -/
inductive Route where
  | joinPath : Token → Route
  | watchPath : Token → Route
  | startPath : Route
deriving DecidableEq, Repr

/-- Outcome of decoding the first message. -/
inductive HandlerResult where
  | rejected : HandlerResult
  | dispatched : Route → HandlerResult
deriving DecidableEq, Repr

/-- The dispatch logic of handler (src/app.py lines 106-120): reading a
missing type field raises, a type other than init fails the assertion —
both reject the connection; otherwise a present join field wins over a
present watch field, and a message with neither goes to start. -/
def handler (msg : InitMsg) : HandlerResult :=
  match msg.type? with
  | none => HandlerResult.rejected
  | some ty =>
      if ty = "init" then
        match msg.join? with
        | some t => HandlerResult.dispatched (Route.joinPath t)
        | none =>
            match msg.watch? with
            | some t => HandlerResult.dispatched (Route.watchPath t)
            | none => HandlerResult.dispatched Route.startPath
      else HandlerResult.rejected

/-- A whole connection attach: decode the first message and run the chosen
entry path, returning the new state, the events sent to this connection,
and the role it was assigned (none when rejected or when the token did not
resolve). -/
def handleConn (st : ServerState) (msg : InitMsg) (ws : ConnId) (jk wk : Token) (sid : Nat) :
    ServerState × List ServerEvent × Option Role :=
  match handler msg with
  | HandlerResult.rejected => (st, [], none)
  | HandlerResult.dispatched (Route.joinPath t) => joinAttach st t ws
  | HandlerResult.dispatched (Route.watchPath t) => watchAttach st t ws
  | HandlerResult.dispatched Route.startPath =>
      ((start st ws jk wk sid).1, (start st ws jk wk sid).2, some Role.firstPlayer)

end C4B

namespace C4B

theorem find?_filter_of_imp {α : Type} (l : List α) (p q : α → Bool)
    (h : ∀ x, p x = true → q x = true) :
    (l.filter q).find? p = l.find? p := by
  induction l with
  | nil => rfl
  | cons a l ih =>
      cases hq : q a with
      | true =>
          cases hp : p a with
          | true => simp [List.filter_cons, hq, List.find?_cons, hp]
          | false => simp [List.filter_cons, hq, List.find?_cons, hp, ih]
      | false =>
          have hp : p a = false := by
            cases hpa : p a with
            | true => rw [h a hpa] at hq; cases hq
            | false => rfl
          simp [List.filter_cons, hq, List.find?_cons, hp, ih]

theorem find?_update_self (heap : List (Nat × Session)) (sid : Nat) (f : Session → Session) :
    (heap.map (fun e => if e.1 == sid then (e.1, f e.2) else e)).find? (fun e => e.1 == sid)
      = (heap.find? (fun e => e.1 == sid)).map (fun e => (e.1, f e.2)) := by
  induction heap with
  | nil => rfl
  | cons e l ih =>
      obtain ⟨k, s⟩ := e
      by_cases he : k = sid
      · subst he
        simp only [List.map_cons, List.find?_cons, beq_self_eq_true, if_true]
        rfl
      · have hb : (k == sid) = false := by simpa using he
        simp only [List.map_cons, List.find?_cons, hb, if_false, Bool.false_eq_true]
        exact ih

theorem find?_update_ne (heap : List (Nat × Session)) (sid sid2 : Nat) (f : Session → Session)
    (h : sid2 ≠ sid) :
    (heap.map (fun e => if e.1 == sid then (e.1, f e.2) else e)).find? (fun e => e.1 == sid2)
      = heap.find? (fun e => e.1 == sid2) := by
  induction heap with
  | nil => rfl
  | cons e l ih =>
      obtain ⟨k, s⟩ := e
      by_cases he : k = sid
      · subst he
        have h2 : (k == sid2) = false := by simpa using fun hh => h hh.symm
        simp only [List.map_cons, List.find?_cons, beq_self_eq_true, if_true, h2,
          Bool.false_eq_true]
        exact ih
      · have hb : (k == sid) = false := by simpa using he
        by_cases he2 : k = sid2
        · subst he2
          simp only [List.map_cons, List.find?_cons, hb, Bool.false_eq_true, if_false,
            beq_self_eq_true]
        · have h2 : (k == sid2) = false := by simpa using he2
          simp only [List.map_cons, List.find?_cons, hb, if_false, h2, Bool.false_eq_true]
          exact ih

theorem getSession_updateSession (st : ServerState) (sid : Nat) (f : Session → Session) :
    getSession (updateSession st sid f) sid = (getSession st sid).map f := by
  simp only [getSession, updateSession, find?_update_self]
  cases st.heap.find? (fun e => e.1 == sid) <;> rfl

theorem getSession_updateSession_ne (st : ServerState) (sid sid2 : Nat) (f : Session → Session)
    (h : sid2 ≠ sid) :
    getSession (updateSession st sid f) sid2 = getSession st sid2 := by
  simp only [getSession, updateSession, find?_update_ne _ _ _ _ h]

theorem updateSession_JOIN (st : ServerState) (sid : Nat) (f : Session → Session) :
    (updateSession st sid f).JOIN = st.JOIN := rfl

theorem updateSession_WATCH (st : ServerState) (sid : Nat) (f : Session → Session) :
    (updateSession st sid f).WATCH = st.WATCH := rfl

theorem resolveJoin_updateSession (st : ServerState) (sid : Nat) (f : Session → Session)
    (t : Token) : resolveJoin (updateSession st sid f) t = resolveJoin st t := rfl

theorem resolveWatch_updateSession (st : ServerState) (sid : Nat) (f : Session → Session)
    (t : Token) : resolveWatch (updateSession st sid f) t = resolveWatch st t := rfl

theorem resolveJoin_startCleanup_self (st : ServerState) (jk : Token) :
    resolveJoin (startCleanup st jk) jk = none := by
  simp only [resolveJoin, startCleanup]
  rw [List.find?_eq_none.mpr]
  · rfl
  · intro x hx
    have := (List.mem_filter.mp hx).2
    simpa using this

theorem resolveJoin_startCleanup_ne (st : ServerState) (jk t : Token) (h : t ≠ jk) :
    resolveJoin (startCleanup st jk) t = resolveJoin st t := by
  simp only [resolveJoin, startCleanup]
  rw [find?_filter_of_imp]
  intro x hx
  have hxt : x.1 = t := by simpa using hx
  simp [hxt, h]

end C4B

namespace C4B

/-- C1: in the relay, every move the engine accepts is broadcast to the
whole group — as a play event carrying player, column and row while the
game has no winner, and as a single win event instead of a play event for
the winning move — so any member connected for the whole run receives the
ordered play events of all recorded moves but the last, followed by
exactly one win event. -/
theorem claim_C1_plays_then_single_win (conns : List ConnId)
    (reqs : List (ConnId × Player × Nat)) (m : ConnId) (wp : Player)
    (hnd : conns.Nodup) (hm : m ∈ conns)
    (hacc : allAccepted Connect4.new reqs = true)
    (hwin : (relayRunD conns Connect4.new reqs).1.winner = some wp) :
    memberLog m (relayRunD conns Connect4.new reqs).2 =
      ((relayRunD conns Connect4.new reqs).1.moves.dropLast.map playEv)
        ++ [ServerEvent.win wp] := by
  obtain ⟨tail, hmoves, hdisj⟩ :=
    relayRunD_accepted conns reqs Connect4.new (by decide) hacc
  rcases hdisj with ⟨hw, _⟩ | ⟨wp2, hwp2, hne, hlog⟩
  · rw [hw] at hwin; cases hwin
  · have hwp : wp2 = wp := by
      rw [hwin] at hwp2; exact Option.some_inj.mp hwp2.symm
    subst hwp
    rw [hlog, memberLog_append, memberLog_bcast _ _ _ _ hnd hm,
      memberLog_map_self _ _ _ hnd hm, hmoves]
    have hnew : Connect4.new.moves = [] := rfl
    rw [hnew, List.nil_append]

/-- Witness for C1: a full game in which the first player stacks four
discs in column 0; both members receive six play events and one win. -/
theorem claim_C1_witness :
    memberLog 0 (relayRunD [0, 1] Connect4.new
        [(0, Player.P1, 0), (1, Player.P2, 1), (0, Player.P1, 0), (1, Player.P2, 1),
         (0, Player.P1, 0), (1, Player.P2, 1), (0, Player.P1, 0)]).2 =
      ((relayRunD [0, 1] Connect4.new
        [(0, Player.P1, 0), (1, Player.P2, 1), (0, Player.P1, 0), (1, Player.P2, 1),
         (0, Player.P1, 0), (1, Player.P2, 1), (0, Player.P1, 0)]).1.moves.dropLast.map playEv)
        ++ [ServerEvent.win Player.P1] :=
  claim_C1_plays_then_single_win [0, 1]
    [(0, Player.P1, 0), (1, Player.P2, 1), (0, Player.P1, 0), (1, Player.P2, 1),
     (0, Player.P1, 0), (1, Player.P2, 1), (0, Player.P1, 0)]
    0 Player.P1 (by decide) (by decide) (by decide) (by decide)

/-- C4: a move the engine rejects produces exactly one error event carrying
the engine message, delivered to the requesting connection only; no other
member receives anything, the engine history is unchanged, and the relay
loop continues from the same state. -/
theorem claim_C4_rejected_move_requester_only (conns : List ConnId) (self : ConnId)
    (g : Connect4) (p : Player) (c : Nat) (emsg : String)
    (rest : List (ConnId × Player × Nat))
    (h : g.play p c = Except.error emsg) :
    relayStepD conns self g p c = (g, [(self, ServerEvent.error emsg)]) ∧
    (relayStepD conns self g p c).1.moves = g.moves ∧
    memberLog self (relayStepD conns self g p c).2 = [ServerEvent.error emsg] ∧
    (∀ m, m ≠ self → memberLog m (relayStepD conns self g p c).2 = []) ∧
    relayRunD conns g ((self, p, c) :: rest) =
      ((relayRunD conns g rest).1,
        (self, ServerEvent.error emsg) :: (relayRunD conns g rest).2) := by
  have hstep : relayStepD conns self g p c = (g, [(self, ServerEvent.error emsg)]) := by
    simp [relayStepD, h]
  refine ⟨hstep, by rw [hstep], ?_, ?_, ?_⟩
  · rw [hstep]; simp [memberLog]
  · intro m hm
    rw [hstep]
    have : (self == m) = false := by simpa using Ne.symm hm
    simp [memberLog, this]
    exact Ne.symm hm
  · simp [relayRunD, hstep]

/-- Witness for C4: the second player tries to move first; only requester 0
gets the error, member 1 gets nothing, and the run continues. -/
theorem claim_C4_witness :
    Connect4.new.play Player.P2 0 = Except.error "It is not your turn." ∧
    relayStepD [0, 1] 0 Connect4.new Player.P2 0 =
      (Connect4.new, [(0, ServerEvent.error "It is not your turn.")]) ∧
    memberLog 1 (relayStepD [0, 1] 0 Connect4.new Player.P2 0).2 = [] := by
  have h : Connect4.new.play Player.P2 0 = Except.error "It is not your turn." := by rfl
  have hc := claim_C4_rejected_move_requester_only [0, 1] 0 Connect4.new Player.P2 0
    "It is not your turn." [] h
  exact ⟨h, hc.1, hc.2.2.2.1 1 (by decide)⟩

end C4B

namespace C4B

/-- C2: a join or watch request whose token is not in the corresponding
registry table gets exactly one error event with message Game not found.,
the connection gets no role (it terminates), and the whole server state —
both tables and every connection group — is returned unchanged. -/
theorem claim_C2_unknown_token_error (st : ServerState) (tj tw : Token) (ws : ConnId)
    (hj : resolveJoin st tj = none) (hw : resolveWatch st tw = none) :
    joinAttach st tj ws = (st, [ServerEvent.error "Game not found."], none) ∧
    watchAttach st tw ws = (st, [ServerEvent.error "Game not found."], none) := by
  constructor
  · simp [joinAttach, hj]
  · simp [watchAttach, hw]

/-- Witness for C2: unknown tokens on the empty server state. -/
theorem claim_C2_witness :
    resolveJoin emptyState "a" = none ∧ resolveWatch emptyState "b" = none ∧
    joinAttach emptyState "a" 0 = (emptyState, [ServerEvent.error "Game not found."], none) ∧
    watchAttach emptyState "b" 0 = (emptyState, [ServerEvent.error "Game not found."], none) :=
  ⟨rfl, rfl, (claim_C2_unknown_token_error emptyState "a" "b" 0 rfl rfl).1,
    (claim_C2_unknown_token_error emptyState "a" "b" 0 rfl rfl).2⟩

/-- C3: the teardown of the first-player connection deletes the session
entry from the join-token table only: the watch table and the heap of
sessions (hence every connection group) are untouched, the join token no
longer resolves so a later join attempt takes the lookup-failure path,
other join tokens are unaffected, and the watch token still resolves so a
later watch attempt still succeeds. -/
theorem claim_C3_first_player_teardown (st : ServerState) (jk wk : Token) (sid : Nat)
    (s : Session) (ws2 : ConnId)
    (hwk : resolveWatch st wk = some sid) (hs : getSession st sid = some s) :
    (startCleanup st jk).WATCH = st.WATCH ∧
    (startCleanup st jk).heap = st.heap ∧
    (∀ sid2, getSession (startCleanup st jk) sid2 = getSession st sid2) ∧
    resolveJoin (startCleanup st jk) jk = none ∧
    (∀ t, t ≠ jk → resolveJoin (startCleanup st jk) t = resolveJoin st t) ∧
    joinAttach (startCleanup st jk) jk ws2 =
      (startCleanup st jk, [ServerEvent.error "Game not found."], none) ∧
    resolveWatch (startCleanup st jk) wk = some sid ∧
    (watchAttach (startCleanup st jk) wk ws2).2.2 = some Role.spectator := by
  have hwatch : resolveWatch (startCleanup st jk) wk = some sid := hwk
  have hsess : getSession (startCleanup st jk) sid = some s := hs
  refine ⟨rfl, rfl, fun _ => rfl, resolveJoin_startCleanup_self st jk,
    fun t ht => resolveJoin_startCleanup_ne st jk t ht, ?_, hwatch, ?_⟩
  · simp [joinAttach, resolveJoin_startCleanup_self st jk]
  · simp [watchAttach, hwatch, hsess]

/-- Witness for C3: a one-session state; deleting join key j leaves watch
key w working. -/
theorem claim_C3_witness :
    resolveWatch ⟨[(0, ⟨Connect4.new, [0]⟩)], [("j", 0)], [("w", 0)]⟩ "w" = some 0 ∧
    ((startCleanup ⟨[(0, ⟨Connect4.new, [0]⟩)], [("j", 0)], [("w", 0)]⟩ "j").WATCH =
        (⟨[(0, ⟨Connect4.new, [0]⟩)], [("j", 0)], [("w", 0)]⟩ : ServerState).WATCH ∧
      (startCleanup ⟨[(0, ⟨Connect4.new, [0]⟩)], [("j", 0)], [("w", 0)]⟩ "j").heap =
        (⟨[(0, ⟨Connect4.new, [0]⟩)], [("j", 0)], [("w", 0)]⟩ : ServerState).heap ∧
      (∀ sid2, getSession (startCleanup ⟨[(0, ⟨Connect4.new, [0]⟩)], [("j", 0)], [("w", 0)]⟩ "j") sid2 =
        getSession ⟨[(0, ⟨Connect4.new, [0]⟩)], [("j", 0)], [("w", 0)]⟩ sid2) ∧
      resolveJoin (startCleanup ⟨[(0, ⟨Connect4.new, [0]⟩)], [("j", 0)], [("w", 0)]⟩ "j") "j" = none ∧
      (∀ t, t ≠ "j" → resolveJoin (startCleanup ⟨[(0, ⟨Connect4.new, [0]⟩)], [("j", 0)], [("w", 0)]⟩ "j") t =
        resolveJoin ⟨[(0, ⟨Connect4.new, [0]⟩)], [("j", 0)], [("w", 0)]⟩ t) ∧
      joinAttach (startCleanup ⟨[(0, ⟨Connect4.new, [0]⟩)], [("j", 0)], [("w", 0)]⟩ "j") "j" 5 =
        (startCleanup ⟨[(0, ⟨Connect4.new, [0]⟩)], [("j", 0)], [("w", 0)]⟩ "j",
          [ServerEvent.error "Game not found."], none) ∧
      resolveWatch (startCleanup ⟨[(0, ⟨Connect4.new, [0]⟩)], [("j", 0)], [("w", 0)]⟩ "j") "w" = some 0 ∧
      (watchAttach (startCleanup ⟨[(0, ⟨Connect4.new, [0]⟩)], [("j", 0)], [("w", 0)]⟩ "j") "w" 5).2.2 =
        some Role.spectator) :=
  ⟨rfl, claim_C3_first_player_teardown ⟨[(0, ⟨Connect4.new, [0]⟩)], [("j", 0)], [("w", 0)]⟩
    "j" "w" 0 ⟨Connect4.new, [0]⟩ 5 rfl rfl⟩

end C4B

namespace C4B

/-- C6: resolving a join token is a pure lookup: a successful join mutates
neither registry table and leaves the token resolving to the same session,
so a second connection presenting the same token also attaches as
second-player, and both handles end up in the session group. -/
theorem claim_C6_join_token_not_consumed (st : ServerState) (jk : Token) (sid : Nat)
    (s : Session) (ws1 ws2 : ConnId)
    (hjk : resolveJoin st jk = some sid) (hs : getSession st sid = some s) :
    (joinAttach st jk ws1).2.2 = some Role.secondPlayer ∧
    (joinAttach st jk ws1).1.JOIN = st.JOIN ∧
    (joinAttach st jk ws1).1.WATCH = st.WATCH ∧
    resolveJoin (joinAttach st jk ws1).1 jk = some sid ∧
    (joinAttach (joinAttach st jk ws1).1 jk ws2).2.2 = some Role.secondPlayer ∧
    (∃ s2, getSession (joinAttach (joinAttach st jk ws1).1 jk ws2).1 sid = some s2 ∧
      ws1 ∈ s2.connected ∧ ws2 ∈ s2.connected) := by
  have h1 : joinAttach st jk ws1 =
      (updateSession st sid (fun s0 => { s0 with connected := s0.connected.insert ws1 }),
       [], some Role.secondPlayer) := by
    simp [joinAttach, hjk]
  have hres1 : resolveJoin (joinAttach st jk ws1).1 jk = some sid := by
    rw [h1]; exact hjk
  have h2 : joinAttach (joinAttach st jk ws1).1 jk ws2 =
      (updateSession (joinAttach st jk ws1).1 sid
        (fun s0 => { s0 with connected := s0.connected.insert ws2 }),
       [], some Role.secondPlayer) := by
    generalize hX : (joinAttach st jk ws1).1 = st1 at hres1
    simp [joinAttach, hres1]
  refine ⟨by rw [h1], by rw [h1]; rfl, by rw [h1]; rfl, hres1, by rw [h2], ?_⟩
  refine ⟨{ s with connected := (s.connected.insert ws1).insert ws2 }, ?_, ?_, ?_⟩
  · rw [h2]
    rw [getSession_updateSession, h1]
    simp only []
    rw [getSession_updateSession, hs]
    rfl
  · exact List.mem_insert_of_mem (List.mem_insert_self ws1 s.connected)
  · exact List.mem_insert_self ws2 _

/-- Witness for C6: two joins with the same key on a one-session state. -/
theorem claim_C6_witness :
    resolveJoin ⟨[(0, ⟨Connect4.new, [0]⟩)], [("j", 0)], [("w", 0)]⟩ "j" = some 0 ∧
    ((joinAttach ⟨[(0, ⟨Connect4.new, [0]⟩)], [("j", 0)], [("w", 0)]⟩ "j" 1).2.2 =
        some Role.secondPlayer ∧
      (joinAttach ⟨[(0, ⟨Connect4.new, [0]⟩)], [("j", 0)], [("w", 0)]⟩ "j" 1).1.JOIN =
        (⟨[(0, ⟨Connect4.new, [0]⟩)], [("j", 0)], [("w", 0)]⟩ : ServerState).JOIN ∧
      (joinAttach ⟨[(0, ⟨Connect4.new, [0]⟩)], [("j", 0)], [("w", 0)]⟩ "j" 1).1.WATCH =
        (⟨[(0, ⟨Connect4.new, [0]⟩)], [("j", 0)], [("w", 0)]⟩ : ServerState).WATCH ∧
      resolveJoin (joinAttach ⟨[(0, ⟨Connect4.new, [0]⟩)], [("j", 0)], [("w", 0)]⟩ "j" 1).1 "j" =
        some 0 ∧
      (joinAttach (joinAttach ⟨[(0, ⟨Connect4.new, [0]⟩)], [("j", 0)], [("w", 0)]⟩ "j" 1).1
          "j" 2).2.2 = some Role.secondPlayer ∧
      (∃ s2, getSession (joinAttach (joinAttach ⟨[(0, ⟨Connect4.new, [0]⟩)],
            [("j", 0)], [("w", 0)]⟩ "j" 1).1 "j" 2).1 0 = some s2 ∧
        1 ∈ s2.connected ∧ 2 ∈ s2.connected)) :=
  ⟨rfl, claim_C6_join_token_not_consumed ⟨[(0, ⟨Connect4.new, [0]⟩)], [("j", 0)], [("w", 0)]⟩
    "j" 0 ⟨Connect4.new, [0]⟩ 1 2 rfl rfl⟩

/-- C9: start registers the same session identifier under the fresh join
key and the fresh watch key, with the creator alone in the group; an
attach performed through the join entry is observed through the watch
entry, because both entries dereference to the same session object. -/
theorem claim_C9_shared_session_aliasing (st : ServerState) (ws ws2 : ConnId)
    (jk wk : Token) (sid : Nat) :
    resolveJoin (start st ws jk wk sid).1 jk = some sid ∧
    resolveWatch (start st ws jk wk sid).1 wk = some sid ∧
    getSession (start st ws jk wk sid).1 sid = some ⟨Connect4.new, [ws]⟩ ∧
    (resolveJoin (joinAttach (start st ws jk wk sid).1 jk ws2).1 jk =
      resolveWatch (joinAttach (start st ws jk wk sid).1 jk ws2).1 wk) ∧
    (∃ s2, (resolveWatch (joinAttach (start st ws jk wk sid).1 jk ws2).1 wk).bind
        (getSession (joinAttach (start st ws jk wk sid).1 jk ws2).1) = some s2 ∧
      ws2 ∈ s2.connected ∧ ws ∈ s2.connected) := by
  have hjoin : resolveJoin (start st ws jk wk sid).1 jk = some sid := by
    simp [start, resolveJoin, List.find?_cons]
  have hwatch : resolveWatch (start st ws jk wk sid).1 wk = some sid := by
    simp [start, resolveWatch, List.find?_cons]
  have hget : getSession (start st ws jk wk sid).1 sid = some ⟨Connect4.new, [ws]⟩ := by
    simp [start, getSession, List.find?_cons]
  have h2 : joinAttach (start st ws jk wk sid).1 jk ws2 =
      (updateSession (start st ws jk wk sid).1 sid
        (fun s0 => { s0 with connected := s0.connected.insert ws2 }),
       [], some Role.secondPlayer) := by
    simp [joinAttach, hjoin]
  refine ⟨hjoin, hwatch, hget, ?_, ?_⟩
  · rw [h2, resolveJoin_updateSession, resolveWatch_updateSession, hjoin, hwatch]
  · refine ⟨⟨Connect4.new, ([ws] : List ConnId).insert ws2⟩, ?_, ?_, ?_⟩
    · rw [h2, resolveWatch_updateSession, hwatch]
      simp only [Option.some_bind]
      rw [getSession_updateSession, hget]
      rfl
    · exact List.mem_insert_self ws2 _
    · exact List.mem_insert_of_mem (List.mem_insert_self ws [])

/-- C10: the first-player teardown never touches any connection group (it
only edits the join table), so a first-player handle stays in its group;
the joined and watching teardown removes exactly its own handle from its
own session: the group keeps every other handle, other sessions and both
registry tables are unchanged. -/
theorem claim_C10_disconnect_group_effects (st : ServerState) (jk : Token) (sid : Nat)
    (s : Session) (ws : ConnId) (hs : getSession st sid = some s) :
    (startCleanup st jk).heap = st.heap ∧
    (∀ sid2, getSession (startCleanup st jk) sid2 = getSession st sid2) ∧
    getSession (removeFromGroup st sid ws) sid =
      some { s with connected := s.connected.erase ws } ∧
    (∀ sid2, sid2 ≠ sid → getSession (removeFromGroup st sid ws) sid2 = getSession st sid2) ∧
    (∀ x, x ≠ ws → (x ∈ s.connected.erase ws ↔ x ∈ s.connected)) ∧
    (removeFromGroup st sid ws).JOIN = st.JOIN ∧
    (removeFromGroup st sid ws).WATCH = st.WATCH := by
  refine ⟨rfl, fun _ => rfl, ?_, ?_, ?_, rfl, rfl⟩
  · rw [removeFromGroup, getSession_updateSession, hs]
    rfl
  · intro sid2 h2
    exact getSession_updateSession_ne st sid sid2 _ h2
  · intro x hx
    exact List.mem_erase_of_ne hx

/-- Witness for C10: a two-member group; member 1 disconnects, member 0
stays; the first-player teardown leaves the heap alone. -/
theorem claim_C10_witness :
    getSession ⟨[(0, ⟨Connect4.new, [0, 1]⟩)], [("j", 0)], [("w", 0)]⟩ 0 =
      some ⟨Connect4.new, [0, 1]⟩ ∧
    ((startCleanup ⟨[(0, ⟨Connect4.new, [0, 1]⟩)], [("j", 0)], [("w", 0)]⟩ "j").heap =
        (⟨[(0, ⟨Connect4.new, [0, 1]⟩)], [("j", 0)], [("w", 0)]⟩ : ServerState).heap ∧
      (∀ sid2, getSession (startCleanup ⟨[(0, ⟨Connect4.new, [0, 1]⟩)],
          [("j", 0)], [("w", 0)]⟩ "j") sid2 =
        getSession ⟨[(0, ⟨Connect4.new, [0, 1]⟩)], [("j", 0)], [("w", 0)]⟩ sid2) ∧
      getSession (removeFromGroup ⟨[(0, ⟨Connect4.new, [0, 1]⟩)], [("j", 0)], [("w", 0)]⟩ 0 1) 0 =
        some ⟨Connect4.new, ([0, 1] : List ConnId).erase 1⟩ ∧
      (∀ sid2, sid2 ≠ 0 →
        getSession (removeFromGroup ⟨[(0, ⟨Connect4.new, [0, 1]⟩)], [("j", 0)], [("w", 0)]⟩ 0 1) sid2 =
        getSession ⟨[(0, ⟨Connect4.new, [0, 1]⟩)], [("j", 0)], [("w", 0)]⟩ sid2) ∧
      (∀ x, x ≠ 1 → (x ∈ ([0, 1] : List ConnId).erase 1 ↔ x ∈ ([0, 1] : List ConnId))) ∧
      (removeFromGroup ⟨[(0, ⟨Connect4.new, [0, 1]⟩)], [("j", 0)], [("w", 0)]⟩ 0 1).JOIN =
        (⟨[(0, ⟨Connect4.new, [0, 1]⟩)], [("j", 0)], [("w", 0)]⟩ : ServerState).JOIN ∧
      (removeFromGroup ⟨[(0, ⟨Connect4.new, [0, 1]⟩)], [("j", 0)], [("w", 0)]⟩ 0 1).WATCH =
        (⟨[(0, ⟨Connect4.new, [0, 1]⟩)], [("j", 0)], [("w", 0)]⟩ : ServerState).WATCH) :=
  ⟨rfl, claim_C10_disconnect_group_effects ⟨[(0, ⟨Connect4.new, [0, 1]⟩)], [("j", 0)], [("w", 0)]⟩
    "j" 0 ⟨Connect4.new, [0, 1]⟩ 1 rfl⟩

end C4B

namespace C4B

/-- C5: a spectator attaching through a resolving watch token is sent,
before anything else, exactly the recorded moves as play events in their
original order, is added to the group, and during the subsequent live run
its received events continue that sequence with no duplication and no gap:
replay plus live log equals the play events of the whole final history
(with the final move delivered as the single win event when the run ends
in a win). -/
theorem claim_C5_replay_then_live (st : ServerState) (t : Token) (sid : Nat) (s : Session)
    (ws : ConnId) (reqs : List (ConnId × Player × Nat))
    (hres : resolveWatch st t = some sid) (hs : getSession st sid = some s)
    (hw : s.game.winner = none) (hacc : allAccepted s.game reqs = true) :
    (watchAttach st t ws).2.1 = s.game.moves.map playEv ∧
    (watchAttach st t ws).2.2 = some Role.spectator ∧
    (∃ s1, getSession (watchAttach st t ws).1 sid = some s1 ∧ ws ∈ s1.connected) ∧
    (∀ conns : List ConnId, conns.Nodup → ws ∈ conns →
      ((relayRunD conns s.game reqs).1.winner = none →
        (watchAttach st t ws).2.1 ++ memberLog ws (relayRunD conns s.game reqs).2 =
          (relayRunD conns s.game reqs).1.moves.map playEv) ∧
      (∀ wp, (relayRunD conns s.game reqs).1.winner = some wp →
        (watchAttach st t ws).2.1 ++ memberLog ws (relayRunD conns s.game reqs).2 =
          ((relayRunD conns s.game reqs).1.moves.dropLast.map playEv)
            ++ [ServerEvent.win wp])) := by
  have hatt : watchAttach st t ws =
      (updateSession st sid (fun s2 => { s2 with connected := s2.connected.insert ws }),
       s.game.moves.map playEv, some Role.spectator) := by
    simp [watchAttach, hres, hs]
  have hmsgs : (watchAttach st t ws).2.1 = s.game.moves.map playEv := by rw [hatt]
  refine ⟨hmsgs, by rw [hatt], ?_, ?_⟩
  · refine ⟨{ s with connected := s.connected.insert ws }, ?_, List.mem_insert_self ws _⟩
    rw [hatt]
    simp only []
    rw [getSession_updateSession, hs]
    rfl
  · intro conns hnd hmem
    obtain ⟨tail, hmoves, hdisj⟩ := relayRunD_accepted conns reqs s.game hw hacc
    constructor
    · intro hnone
      rcases hdisj with ⟨_, hlog⟩ | ⟨wp2, hwp2, _, _⟩
      · rw [hmsgs, hlog, memberLog_bcast _ _ _ _ hnd hmem, hmoves, List.map_append]
      · rw [hwp2] at hnone; cases hnone
    · intro wp hwp
      rcases hdisj with ⟨hn, _⟩ | ⟨wp2, hwp2, hne, hlog⟩
      · rw [hn] at hwp; cases hwp
      · have heq : wp2 = wp := by
          rw [hwp] at hwp2; exact Option.some_inj.mp hwp2.symm
        subst heq
        rw [hmsgs, hlog, memberLog_append, memberLog_bcast _ _ _ _ hnd hmem,
          memberLog_map_self _ _ _ hnd hmem, hmoves,
          List.dropLast_append_of_ne_nil _ hne, List.map_append, List.append_assoc]

/-- Witness for C5: a spectator attaches after two recorded moves and then
one more accepted move is played live. -/
theorem claim_C5_witness :
    resolveWatch ⟨[(0, ⟨⟨[(Player.P1, 3, 0), (Player.P2, 3, 1)]⟩, [0, 1]⟩)],
        [("j", 0)], [("w", 0)]⟩ "w" = some 0 ∧
    allAccepted ⟨[(Player.P1, 3, 0), (Player.P2, 3, 1)]⟩ [(0, Player.P1, 4)] = true ∧
    ((watchAttach ⟨[(0, ⟨⟨[(Player.P1, 3, 0), (Player.P2, 3, 1)]⟩, [0, 1]⟩)],
        [("j", 0)], [("w", 0)]⟩ "w" 2).2.1 =
      (⟨[(Player.P1, 3, 0), (Player.P2, 3, 1)]⟩ : Connect4).moves.map playEv ∧
    (watchAttach ⟨[(0, ⟨⟨[(Player.P1, 3, 0), (Player.P2, 3, 1)]⟩, [0, 1]⟩)],
        [("j", 0)], [("w", 0)]⟩ "w" 2).2.2 = some Role.spectator ∧
    (∃ s1, getSession (watchAttach ⟨[(0, ⟨⟨[(Player.P1, 3, 0), (Player.P2, 3, 1)]⟩, [0, 1]⟩)],
        [("j", 0)], [("w", 0)]⟩ "w" 2).1 0 = some s1 ∧ 2 ∈ s1.connected) ∧
    (∀ conns : List ConnId, conns.Nodup → 2 ∈ conns →
      ((relayRunD conns ⟨[(Player.P1, 3, 0), (Player.P2, 3, 1)]⟩ [(0, Player.P1, 4)]).1.winner = none →
        (watchAttach ⟨[(0, ⟨⟨[(Player.P1, 3, 0), (Player.P2, 3, 1)]⟩, [0, 1]⟩)],
            [("j", 0)], [("w", 0)]⟩ "w" 2).2.1 ++
          memberLog 2 (relayRunD conns ⟨[(Player.P1, 3, 0), (Player.P2, 3, 1)]⟩
            [(0, Player.P1, 4)]).2 =
          (relayRunD conns ⟨[(Player.P1, 3, 0), (Player.P2, 3, 1)]⟩
            [(0, Player.P1, 4)]).1.moves.map playEv) ∧
      (∀ wp, (relayRunD conns ⟨[(Player.P1, 3, 0), (Player.P2, 3, 1)]⟩
            [(0, Player.P1, 4)]).1.winner = some wp →
        (watchAttach ⟨[(0, ⟨⟨[(Player.P1, 3, 0), (Player.P2, 3, 1)]⟩, [0, 1]⟩)],
            [("j", 0)], [("w", 0)]⟩ "w" 2).2.1 ++
          memberLog 2 (relayRunD conns ⟨[(Player.P1, 3, 0), (Player.P2, 3, 1)]⟩
            [(0, Player.P1, 4)]).2 =
          ((relayRunD conns ⟨[(Player.P1, 3, 0), (Player.P2, 3, 1)]⟩
            [(0, Player.P1, 4)]).1.moves.dropLast.map playEv) ++ [ServerEvent.win wp]))) :=
  ⟨rfl, by decide, claim_C5_replay_then_live
    ⟨[(0, ⟨⟨[(Player.P1, 3, 0), (Player.P2, 3, 1)]⟩, [0, 1]⟩)], [("j", 0)], [("w", 0)]⟩
    "w" 0 ⟨⟨[(Player.P1, 3, 0), (Player.P2, 3, 1)]⟩, [0, 1]⟩ 2 [(0, Player.P1, 4)]
    rfl rfl (by decide) (by decide)⟩

end C4B

namespace C4B

/-- C7: the role of a connection is fixed by its entry path alone: a first
message with a join field dispatches to the join path, whose only possible
role is second-player (the relay is entered as PLAYER2); one with a watch
field but no join field dispatches to the watch path, whose only possible
role is spectator, which plays no engine role at all; one with neither
creates the session and is first-player (the relay is entered as PLAYER1). -/
theorem claim_C7_roles_by_entry_path (st : ServerState) (msg : InitMsg) (ws : ConnId)
    (jk wk : Token) (sid : Nat) (hty : msg.type? = some "init") :
    (∀ t, msg.join? = some t →
      handleConn st msg ws jk wk sid = joinAttach st t ws ∧
      ∀ r, (joinAttach st t ws).2.2 = some r → r = Role.secondPlayer) ∧
    (msg.join? = none → ∀ t, msg.watch? = some t →
      handleConn st msg ws jk wk sid = watchAttach st t ws ∧
      ∀ r, (watchAttach st t ws).2.2 = some r → r = Role.spectator) ∧
    (msg.join? = none → msg.watch? = none →
      (handleConn st msg ws jk wk sid).2.2 = some Role.firstPlayer ∧
      (handleConn st msg ws jk wk sid).1 = (start st ws jk wk sid).1) ∧
    rolePlayer Role.firstPlayer = some Player.P1 ∧
    rolePlayer Role.secondPlayer = some Player.P2 ∧
    rolePlayer Role.spectator = none := by
  refine ⟨?_, ?_, ?_, rfl, rfl, rfl⟩
  · intro t htj
    constructor
    · simp [handleConn, handler, hty, htj]
    · intro r hr
      cases hres : resolveJoin st t with
      | none => simp [joinAttach, hres] at hr
      | some sid2 =>
          simp [joinAttach, hres] at hr
          exact hr.symm
  · intro hne t htw
    constructor
    · simp [handleConn, handler, hty, hne, htw]
    · intro r hr
      cases hres : resolveWatch st t with
      | none => simp [watchAttach, hres] at hr
      | some sid2 =>
          cases hget : getSession st sid2 with
          | none => simp [watchAttach, hres, hget] at hr
          | some s => simp [watchAttach, hres, hget] at hr; exact hr.symm
  · intro hnj hnw
    constructor
    · simp [handleConn, handler, hty, hnj, hnw]
    · simp [handleConn, handler, hty, hnj, hnw]

/-- Witness for C7: the three entry shapes against a one-session state. -/
theorem claim_C7_witness :
    (∀ t, (⟨some "init", some "j", none⟩ : InitMsg).join? = some t →
      handleConn ⟨[(0, ⟨Connect4.new, [0]⟩)], [("j", 0)], [("w", 0)]⟩
          ⟨some "init", some "j", none⟩ 1 "a" "b" 5 =
        joinAttach ⟨[(0, ⟨Connect4.new, [0]⟩)], [("j", 0)], [("w", 0)]⟩ t 1 ∧
      ∀ r, (joinAttach ⟨[(0, ⟨Connect4.new, [0]⟩)], [("j", 0)], [("w", 0)]⟩ t 1).2.2 = some r →
        r = Role.secondPlayer) ∧
    ((⟨some "init", some "j", none⟩ : InitMsg).join? = none →
      ∀ t, (⟨some "init", some "j", none⟩ : InitMsg).watch? = some t →
      handleConn ⟨[(0, ⟨Connect4.new, [0]⟩)], [("j", 0)], [("w", 0)]⟩
          ⟨some "init", some "j", none⟩ 1 "a" "b" 5 =
        watchAttach ⟨[(0, ⟨Connect4.new, [0]⟩)], [("j", 0)], [("w", 0)]⟩ t 1 ∧
      ∀ r, (watchAttach ⟨[(0, ⟨Connect4.new, [0]⟩)], [("j", 0)], [("w", 0)]⟩ t 1).2.2 = some r →
        r = Role.spectator) ∧
    ((⟨some "init", some "j", none⟩ : InitMsg).join? = none →
      (⟨some "init", some "j", none⟩ : InitMsg).watch? = none →
      (handleConn ⟨[(0, ⟨Connect4.new, [0]⟩)], [("j", 0)], [("w", 0)]⟩
          ⟨some "init", some "j", none⟩ 1 "a" "b" 5).2.2 = some Role.firstPlayer ∧
      (handleConn ⟨[(0, ⟨Connect4.new, [0]⟩)], [("j", 0)], [("w", 0)]⟩
          ⟨some "init", some "j", none⟩ 1 "a" "b" 5).1 =
        (start ⟨[(0, ⟨Connect4.new, [0]⟩)], [("j", 0)], [("w", 0)]⟩ 1 "a" "b" 5).1) ∧
    rolePlayer Role.firstPlayer = some Player.P1 ∧
    rolePlayer Role.secondPlayer = some Player.P2 ∧
    rolePlayer Role.spectator = none :=
  claim_C7_roles_by_entry_path ⟨[(0, ⟨Connect4.new, [0]⟩)], [("j", 0)], [("w", 0)]⟩
    ⟨some "init", some "j", none⟩ 1 "a" "b" 5 rfl

/-- C8: the first inbound message must carry type init: when the type field
is absent or has any other value the handler rejects the connection with no
event sent at all — even when the message carries a join or watch token —
and the server state is untouched. -/
theorem claim_C8_bad_type_rejected (st : ServerState) (msg : InitMsg) (ws : ConnId)
    (jk wk : Token) (sid : Nat)
    (hty : ∀ ty, msg.type? = some ty → ty ≠ "init") :
    handler msg = HandlerResult.rejected ∧
    handleConn st msg ws jk wk sid = (st, [], none) := by
  have hh : handler msg = HandlerResult.rejected := by
    cases hmt : msg.type? with
    | none => simp [handler, hmt]
    | some ty => simp [handler, hmt, hty ty hmt]
  exact ⟨hh, by simp [handleConn, hh]⟩

/-- Witness for C8: a message with a resolving join token but type move is
rejected with no events. -/
theorem claim_C8_witness :
    resolveJoin ⟨[(0, ⟨Connect4.new, [0]⟩)], [("j", 0)], [("w", 0)]⟩ "j" = some 0 ∧
    handler (⟨some "move", some "j", none⟩ : InitMsg) = HandlerResult.rejected ∧
    handleConn ⟨[(0, ⟨Connect4.new, [0]⟩)], [("j", 0)], [("w", 0)]⟩
        ⟨some "move", some "j", none⟩ 1 "a" "b" 5 =
      (⟨[(0, ⟨Connect4.new, [0]⟩)], [("j", 0)], [("w", 0)]⟩, [], none) :=
  ⟨rfl,
    (claim_C8_bad_type_rejected ⟨[(0, ⟨Connect4.new, [0]⟩)], [("j", 0)], [("w", 0)]⟩
      ⟨some "move", some "j", none⟩ 1 "a" "b" 5
      (fun ty h => by injection h with h2; rw [← h2]; decide)).1,
    (claim_C8_bad_type_rejected ⟨[(0, ⟨Connect4.new, [0]⟩)], [("j", 0)], [("w", 0)]⟩
      ⟨some "move", some "j", none⟩ 1 "a" "b" 5
      (fun ty h => by injection h with h2; rw [← h2]; decide)).2⟩

end C4B
